import Mathlib

/-!
# Argus insider-threat scoring core: a shallow embedding

This file embeds, in Lean, the data model and the operations of the Argus
scoring pipeline (`app/analysis/contextual_risk.py`, `app/analysis/ntw.py`,
`app/analysis/ml_risk.py`, `app/db/dao.py`), and proves or refutes the
specified properties about them.

Timestamps are rationals measured in seconds; scores in the orchestrator are
reals ( the blend uses a sigmoid).  Per-actor state (the rolling window, the
FSM list) is threaded explicitly: `ACTOR_WINDOWS` and `ACTIVE_FSMS` key these
structures by actor id and the entries for distinct actors are independent,
so a single actor's evolution is modelled by passing that actor's state.
-/

/-- An activity event as the scoring pipeline consumes it (a row of `events`
joined with `files`): `id`, `actor_user_id`, `event_type`, `ts`, `name`,
`mime_type`, with the file's `created_time` and `modified_time` available from
the joined file record. -/
structure Event where
  eid : Nat
  actor_user_id : Option String
  event_type : String
  ts : ℚ
  name : Option String
  mime_type : Option String
  created_time : Option ℚ
  modified_time : Option ℚ
deriving DecidableEq, Repr

/-- `MAX_WINDOW_MINUTES` of `app/analysis/contextual_risk.py`. -/
def MAX_WINDOW_MINUTES : ℚ := 45

/-- `BULK_COPY_THRESHOLD` of `app/analysis/contextual_risk.py`. -/
def BULK_COPY_THRESHOLD : Nat := 2

/-- The dictionary `update_and_compute_micro_patterns` returns: the historical
ML features (counts as naturals; Python stores them as floats) and the three
optional discrete micro-patterns, each carrying the payload the source builds
for it. -/
structure MicroFeatures where
  time_since_last_event_for_actor : ℚ
  actor_copy_count_30m : Nat
  actor_trash_count_30m : Nat
  actor_download_count_30m : Nat
  actor_external_share_count_15m : Nat
  actor_archive_created_flag_10m : Bool
  bulk_copy : Option (Nat × ℚ)
  archive_create : Option (Option String × ℚ)
  external_share : Option (Option String × ℚ)
deriving DecidableEq, Repr

/-- The eviction loop of `update_and_compute_micro_patterns` Step 3: pop
events from the front of the deque while they are more than
`MAX_WINDOW_MINUTES` older than the current event, stopping at the first
event still within the bound. -/
def evictOld : List Event → ℚ → List Event
  | [], _ => []
  | e :: rest, now =>
    if MAX_WINDOW_MINUTES * 60 < now - e.ts then evictOld rest now else e :: rest

/-- `update_and_compute_micro_patterns(event)` of
`app/analysis/contextual_risk.py`, acting on one actor's window (the deque
`ACTOR_WINDOWS[actor_id]`): compute the historical ML features over the
existing window, detect the discrete micro-patterns from the current event,
then append the event and evict entries older than the bound.  Returns the
feature record and the updated window. -/
def update_and_compute_micro_patterns (window : List Event) (event : Event) :
    MicroFeatures × List Event :=
  let events_30m := window.filter fun e => decide (event.ts - 30 * 60 ≤ e.ts)
  let events_15m := events_30m.filter fun e => decide (event.ts - 15 * 60 ≤ e.ts)
  let events_10m := events_15m.filter fun e => decide (event.ts - 10 * 60 ≤ e.ts)
  let copy_count := (events_30m.filter fun e => e.event_type == "file_copied").length
  let feats : MicroFeatures :=
    { time_since_last_event_for_actor :=
        match window.getLast? with
        | some last => event.ts - last.ts
        | none => 0
      actor_copy_count_30m := copy_count
      actor_trash_count_30m :=
        (events_30m.filter fun e => e.event_type == "file_trashed").length
      actor_download_count_30m :=
        (events_30m.filter fun e => e.event_type == "file_downloaded").length
      actor_external_share_count_15m :=
        (events_15m.filter fun e => e.event_type == "file_shared_externally").length
      actor_archive_created_flag_10m :=
        events_10m.any fun e =>
          e.event_type == "file_created" && e.mime_type == some "application/zip"
      bulk_copy :=
        if event.event_type = "file_copied" ∧ copy_count + 1 = BULK_COPY_THRESHOLD then
          some (BULK_COPY_THRESHOLD, 30)
        else none
      archive_create :=
        if event.event_type = "file_created" ∧ event.mime_type = some "application/zip" then
          some (event.name, event.ts)
        else none
      external_share :=
        if event.event_type = "file_shared_externally" then some (event.name, event.ts)
        else none }
  (feats, evictOld (window ++ [event]) event.ts)

/-- One step of the per-actor window state: the window
`update_and_compute_micro_patterns` leaves behind. -/
def stepWindow (window : List Event) (event : Event) : List Event :=
  (update_and_compute_micro_patterns window event).2

/-- The actor's window after processing a sequence of events in order,
starting from an empty window. -/
def runWindow (events : List Event) : List Event :=
  events.foldl stepWindow []

/-- The 30-minute rolling copy count of the existing window, as the source
computes it ( `actor_copy_count_30m`, the count before the current event). -/
def copyCount30m (window : List Event) (event : Event) : Nat :=
  ((window.filter fun e => decide (event.ts - 30 * 60 ≤ e.ts)).filter
    fun e => e.event_type == "file_copied").length

/-- Both events of the pair are ordered by timestamp. -/
def tsLE (a b : Event) : Prop := a.ts ≤ b.ts

/-! ## The narrative engine (FSM population)

Modelled from the spec: `ntw.py` imports `analyze_narratives_for_actor` from
`app.analysis.narrative_builder` and `tests/analysis/test_narrative_builder.py`
exercises that FSM engine (`ACTIVE_FSMS`, per-template instances with an
integer `state` cursor), but the `narrative_builder.py` present in the tree is
an older batch-query revision without it; the engine below follows spec
section 4.4 (states, transition rule, prune / advance / spawn / reap
lifecycle) and the interface the test file shows. -/

/-- Modelled from the spec: a static narrative template
`(id, starter_patterns, ordered_steps, total_time_window, base_score, reason)`;
`ordered_steps` is kept as the list of its step pattern types. -/
structure NarrativeTemplate where
  tid : String
  starter_patterns : List String
  ordered_steps : List String
  total_time_window_minutes : ℚ
  base_score : ℚ
  reason : String
deriving DecidableEq, Repr

/-- Modelled from the spec: a live FSM instance
`(template_ref, state_index, start_time, evidence, contributing_event_ids)`.
The actor id is implicit: `ACTIVE_FSMS` keys instance lists by actor. -/
structure FSMInstance where
  template : NarrativeTemplate
  state : Nat
  start_time : ℚ
  evidence : List (String × String)
  contributing : List (Nat × String)
deriving DecidableEq, Repr

/-- Modelled from the spec: the four outcomes of `advance`. -/
inductive AdvanceResult
  | ALREADY_COMPLETE
  | ADVANCED
  | COMPLETE
  | NO_MATCH
deriving DecidableEq, Repr

/-- Modelled from the spec: the transition rule
`advance(pattern_type, pattern_data, event_id)` — at or past the terminal
state return ALREADY_COMPLETE; on the expected step's type advance the cursor,
record evidence and the contributing event, and return ADVANCED or COMPLETE;
otherwise NO_MATCH with no side effect. -/
def FSMInstance.advance (f : FSMInstance) (pattern_type pattern_data : String)
    (event_id : Nat) : AdvanceResult × FSMInstance :=
  if f.template.ordered_steps.length ≤ f.state then (.ALREADY_COMPLETE, f)
  else if f.template.ordered_steps[f.state]? = some pattern_type then
    let f' : FSMInstance :=
      { f with
        state := f.state + 1
        evidence := f.evidence ++ [(pattern_type, pattern_data)]
        contributing := f.contributing ++ [(event_id, pattern_type)] }
    (if f.state + 1 = f.template.ordered_steps.length then .COMPLETE else .ADVANCED, f')
  else (.NO_MATCH, f)

/-- Modelled from the spec: the structured narrative-hit object a completing
FSM emits, exactly the payload the narrative store persists. -/
structure CompletedNarrative where
  narrative_type : String
  score : ℚ
  reason : String
  evidence : List (String × String)
  primary_actor_id : String
  start_time : ℚ
  end_time : ℚ
  event_ids : List (Nat × String)
deriving DecidableEq, Repr

/-- Modelled from the spec: the narrative-hit object built from a completed
instance. -/
def mkNarrative (f : FSMInstance) (actor : String) (now : ℚ) : CompletedNarrative :=
  { narrative_type := f.template.tid
    score := f.template.base_score
    reason := f.template.reason
    evidence := f.evidence
    primary_actor_id := actor
    start_time := f.start_time
    end_time := now
    event_ids := f.contributing }

/-- Modelled from the spec: attempt `advance` with every micro-pattern of the
event in emission order; the Boolean records whether a COMPLETE transition
happened during this event. -/
def advanceAllPatterns (f : FSMInstance) (patterns : List (String × String))
    (event_id : Nat) : FSMInstance × Bool :=
  patterns.foldl
    (fun acc p =>
      let step := acc.1.advance p.1 p.2 event_id
      (step.2, acc.2 || decide (step.1 = .COMPLETE)))
    (f, false)

/-- Modelled from the spec: the spawn phase — walk the event's patterns in
order; for each template whose `starter_patterns` contains the pattern and
which has no running instance yet (`tids` lists the template ids already
present, newly spawned ones included), create an instance at the current time
and immediately advance it with the triggering pattern. -/
def spawnInstances (templates : List NarrativeTemplate) (event_id : Nat) (now : ℚ) :
    List (String × String) → List String → List (FSMInstance × Bool)
  | [], _ => []
  | p :: rest, tids =>
    let fresh := templates.filterMap fun t =>
      if t.starter_patterns.contains p.1 && !(tids.contains t.tid) then
        let step := (FSMInstance.mk t 0 now [] []).advance p.1 p.2 event_id
        some (step.2, decide (step.1 = .COMPLETE))
      else none
    fresh ++ spawnInstances templates event_id now rest
      (tids ++ fresh.map fun fc => fc.1.template.tid)

/-- Modelled from the spec: `analyze_narratives_for_actor` — one event's
lifecycle for one actor's FSM list.  1. Prune instances whose elapsed time
since `start_time` exceeds the template's total time window.  2. Advance every
still-active instance with every pattern.  3. Spawn starter-pattern instances
for templates with no running instance (after advancing, so a starter does not
advance an existing instance and itself twice).  4. Reap completed instances;
the first COMPLETE of the event is the one narrative returned. -/
def pruneInstances (fsms : List FSMInstance) (now : ℚ) : List FSMInstance :=
  fsms.filter fun f =>
    decide (now - f.start_time ≤ f.template.total_time_window_minutes * 60)

def analyze_narratives_for_actor (templates : List NarrativeTemplate)
    (fsms : List FSMInstance) (actor : String) (patterns : List (String × String))
    (event_id : Nat) (now : ℚ) : Option CompletedNarrative × List FSMInstance :=
  let advanced := (pruneInstances fsms now).map fun f => advanceAllPatterns f patterns event_id
  let spawned := spawnInstances templates event_id now patterns
    (advanced.map fun fc => fc.1.template.tid)
  let all := advanced ++ spawned
  let narrative := (all.filter fun fc => fc.2).head?.map fun fc => mkNarrative fc.1 actor now
  (narrative, (all.filter fun fc => !fc.2).map fun fc => fc.1)

/-- Modelled from the spec: deliver a sequence of `(pattern_type, time)` pairs
to the engine one event at a time (each event carrying one micro-pattern),
returning the last call's result. -/
def feedPatterns (templates : List NarrativeTemplate) (actor : String) :
    List FSMInstance → List (String × ℚ) → Option CompletedNarrative × List FSMInstance
  | fsms, [] => (none, fsms)
  | fsms, [(p, t)] => analyze_narratives_for_actor templates fsms actor [(p, "")] 0 t
  | fsms, (p, t) :: q :: rest =>
    feedPatterns templates actor
      (analyze_narratives_for_actor templates fsms actor [(p, "")] 0 t).2 (q :: rest)

/-- The cursor evolution `advance` induces, abstracted from evidence: on the
expected step's type the cursor moves one step, otherwise it stays. -/
def stepCursor (steps : List String) (k : Nat) (p : String) : Nat :=
  if steps[k]? = some p then k + 1 else k

/-- The cursor after delivering a list of pattern types to one instance. -/
def runCursor (steps : List String) (k : Nat) (ps : List String) : Nat :=
  ps.foldl (stepCursor steps) k

/-- Deliver a list of pattern types to one FSM instance, one `advance` per
pattern. -/
def foldAdvance (f : FSMInstance) (ps : List String) : FSMInstance :=
  ps.foldl (fun g p => (g.advance p "" 0).2) f

/-! ## The spec's contextual-risk additions, for comparison with the source

`app/config.py` defines `CONTEXTUAL_RISK_ADDITIONS` (DORMANT_FILE 7.0,
COMPRESSED_ARCHIVE 4.0, BURST_ACTIVITY 8.0) and `BURST_ACTIVITY_THRESHOLD`
(15); spec section 4.2 describes an `update_and_score` contract returning a
contextual-risk score built from them.  `contextual_risk.py` computes no such
score, so the spec's description is embedded separately here to compare the
two. -/

/-- `BURST_ACTIVITY_THRESHOLD` of `app/config.py`. -/
def BURST_ACTIVITY_THRESHOLD : Nat := 15

/-- Modelled from the spec: dormant-file activation — the file is older than a
configurable age, unmodified for a configurable quiet period, and acted upon
by a modify, share or trash event (the thresholds are configuration, passed as
parameters). -/
def isDormantActivation (age_cutoff quiet_cutoff : ℚ) (e : Event) : Bool :=
  (e.event_type == "file_modified" || e.event_type == "file_shared_externally" ||
    e.event_type == "file_trashed") &&
  (match e.created_time with
    | some ct => decide (age_cutoff ≤ e.ts - ct)
    | none => false) &&
  (match e.modified_time with
    | some mt => decide (quiet_cutoff ≤ e.ts - mt)
    | none => false)

/-- Modelled from the spec: compressed-archive involvement by name extension. -/
def hasArchiveExtension (e : Event) : Bool :=
  match e.name with
  | some n => n.endsWith ".zip" || n.endsWith ".rar" || n.endsWith ".7z"
  | none => false

/-- Modelled from the spec: burst activity — the count of the actor's events in
the preceding `burst_minutes`, over the existing window strictly before the
current event is appended, exceeds `BURST_ACTIVITY_THRESHOLD`. -/
def isBurstActivity (burst_minutes : ℚ) (window : List Event) (e : Event) : Bool :=
  BURST_ACTIVITY_THRESHOLD <
    (window.filter fun x => decide (e.ts - burst_minutes * 60 ≤ x.ts)).length

/-- Modelled from the spec: the contextual-risk score of the `update_and_score`
contract — the additive point additions of `CONTEXTUAL_RISK_ADDITIONS` for
dormant-file activation, compressed-archive involvement and burst activity. -/
def spec_contextual_risk_score (age_cutoff quiet_cutoff burst_minutes : ℚ)
    (window : List Event) (e : Event) : ℚ :=
  (if isDormantActivation age_cutoff quiet_cutoff e then 7 else 0) +
  (if hasArchiveExtension e then 4 else 0) +
  (if isBurstActivity burst_minutes window e then 8 else 0)

/-! ## The orchestrator (`app/analysis/ntw.py`) -/

/-- `_sigmoid` of `app/analysis/ntw.py`. -/
noncomputable def sigmoid (x : ℝ) : ℝ := 1 / (1 + Real.exp (-x))

/-- `NARRATIVE_CONFIDENCE_MAX_SCORE` of `app/config.py`. -/
def NARRATIVE_CONFIDENCE_MAX_SCORE : ℝ := 30

/-- `NARRATIVE_CONFIDENCE_THRESHOLD` of `app/config.py`. -/
def NARRATIVE_CONFIDENCE_THRESHOLD : ℝ := 0.75

/-- `NARRATIVE_CONFIDENCE_SHARPNESS` of `app/config.py`. -/
def NARRATIVE_CONFIDENCE_SHARPNESS : ℝ := 10

/-- `SUPERVISED_ML_CONFIG['prosecutor_min_confidence']` of `app/config.py`. -/
def PROSECUTOR_MIN_CONFIDENCE : ℝ := 0.65

/-- `SUPERVISED_ML_CONFIG['score_mapping_slope']` of `app/config.py`. -/
def SCORE_MAPPING_SLOPE : ℝ := 90

/-- `AMPLIFIER_BONUSES` of `app/config.py`, as an association list. -/
def AMPLIFIER_BONUSES : List (String × ℚ) :=
  [("OFF_HOURS_ACTIVITY", 0.5), ("DORMANT_FILE_ACTIVATION", 0.75),
   ("COMPRESSED_ARCHIVE", 0.25)]

/-- `MAX_AMPLIFIER_BONUS` of `app/config.py`. -/
def MAX_AMPLIFIER_BONUS : ℚ := 2

/-- `_calculate_blended_base_score(er_score, nr_score)` of `ntw.py`: the
sigmoid-weighted blend and its logic tier. -/
noncomputable def calculate_blended_base_score (er_score nr_score : ℝ) : ℝ × String :=
  let narrative_confidence := min 1 (nr_score / NARRATIVE_CONFIDENCE_MAX_SCORE)
  let narrative_weight := sigmoid
    (NARRATIVE_CONFIDENCE_SHARPNESS * (narrative_confidence - NARRATIVE_CONFIDENCE_THRESHOLD))
  let base_score := narrative_weight * nr_score + (1 - narrative_weight) * er_score
  let tier : String :=
    if 0.9 < narrative_weight then "Narrative-Driven"
    else if narrative_weight < 0.1 then "Event-Driven"
    else "Blended"
  (base_score, tier)

/-- The threat-level assignment at the end of `get_final_threat_score`
(`ntw.py` lines 121-131). -/
noncomputable def assign_threat_level (final_score : ℝ) (logic_tier : String) : String :=
  if 70 ≤ final_score then
    if logic_tier = "Narrative-Driven" then "Critical" else "High"
  else if 40 ≤ final_score then "High"
  else if 20 ≤ final_score then "Medium"
  else "Low"

/-- The output dictionary of `get_final_threat_score` (the fields the claims
concern; the reasons lists are omitted). -/
structure ScoreResult where
  final_score : ℝ
  threat_level : String
  tags : List String
  logic_tier : String
  base_score : ℝ
  total_amplifier_bonus : ℝ
  er_score : ℝ
  nr_score : ℝ

/-- The scoring computation of `get_final_threat_score` (`ntw.py` lines
42-88 and 121-147), taken as a function of the signal values it consumes: the
heuristic ER score and tags, the ML probability, and the narrative the engine
completed for this event (if any).  Follows the source: ML contributes
`probability * slope` once the probability reaches the confidence threshold
(then the ML tag is appended); the ER score is the max of heuristic and ML
contributions; a completed narrative's score dominates as tier
Narrative-Driven, otherwise the sigmoid blend runs; the amplifier bonus is the
literal `0.0` of line 86; the final score is `min(base * (1 + bonus), 100)`. -/
noncomputable def get_final_threat_score_core (er_heuristic_score : ℝ)
    (er_tags : List String) (ml_probability : ℝ)
    (completed_narrative : Option CompletedNarrative) : ScoreResult :=
  let nr_score : ℝ :=
    match completed_narrative with
    | some n => (n.score : ℝ)
    | none => 0
  let er_ml_score : ℝ :=
    if PROSECUTOR_MIN_CONFIDENCE ≤ ml_probability then ml_probability * SCORE_MAPPING_SLOPE
    else 0
  let tags : List String :=
    if PROSECUTOR_MIN_CONFIDENCE ≤ ml_probability then er_tags ++ ["ML_BEHAVIORAL_THREAT"]
    else er_tags
  let er_score : ℝ := max er_heuristic_score er_ml_score
  let bt : ℝ × String :=
    match completed_narrative with
    | some _ => (nr_score, "Narrative-Driven")
    | none => calculate_blended_base_score er_score nr_score
  let total_amplifier_bonus : ℝ := 0
  let final_score : ℝ := min (bt.1 * (1 + total_amplifier_bonus)) 100
  { final_score := final_score
    threat_level := assign_threat_level final_score bt.2
    tags := tags
    logic_tier := bt.2
    base_score := bt.1
    total_amplifier_bonus := total_amplifier_bonus
    er_score := er_score
    nr_score := nr_score }

/-! ## The ML risk adapter (`app/analysis/ml_risk.py`) and signal isolation -/

/-- What one call to the external probability oracle does: return a
probability, or raise. -/
inductive MLOutcome
  | ok (p : ℝ)
  | err (msg : String)

/-- `calculate_ml_risk_score` of `app/analysis/ml_risk.py`: when the model
artifact is not loaded, or the event has no actor (or the feature matrix comes
back empty, folded into `oracle` here), the score is the neutral `0.0`; when
the model is consulted, whatever the prediction call does — its value or its
exception — is the call's outcome.  The source has no handler around the
prediction. -/
def calculate_ml_risk_score (model_loaded : Bool) (event_actor : Option String)
    (oracle : MLOutcome) : MLOutcome :=
  if model_loaded then
    match event_actor with
    | none => .ok 0
    | some _ => oracle
  else .ok 0

/-- `get_final_threat_score` as run through the ML layer: `ntw.py` calls
`calculate_ml_risk_score` inside its outer `try`, whose handler logs and
re-raises (line 119), so an exception from the ML layer aborts the event's
scoring; a returned probability flows into the scoring computation. -/
noncomputable def get_final_threat_score_run (er_heuristic_score : ℝ)
    (er_tags : List String) (model_loaded : Bool) (event_actor : Option String)
    (oracle : MLOutcome) (completed_narrative : Option CompletedNarrative) :
    Except String ScoreResult :=
  match calculate_ml_risk_score model_loaded event_actor oracle with
  | .err msg => .error msg
  | .ok p => .ok (get_final_threat_score_core er_heuristic_score er_tags p completed_narrative)

/-! ## The narrative store (`app/db/dao.py`) and persistence isolation -/

/-- A persisted narrative header row (`narratives` table). -/
structure NarrativeRow where
  narrative_type : String
  primary_actor_id : String
  start_time : ℚ
  end_time : ℚ
  final_score : ℚ
deriving DecidableEq, Repr

/-- The narrative store: the `narratives` table, the `narrative_events` join
table `(narrative_id, event_id, stage)`, and the next rowid. -/
structure NarrativeStore where
  next_id : Nat
  narratives : List (Nat × NarrativeRow)
  narrative_events : List (Nat × Nat × String)
deriving DecidableEq, Repr

/-- `dao.create_narrative(cursor, narrative_data)`: insert the header row,
return the new rowid. -/
def create_narrative (db : NarrativeStore) (n : CompletedNarrative) :
    NarrativeStore × Nat :=
  ({ db with
      next_id := db.next_id + 1
      narratives := db.narratives ++
        [(db.next_id, ⟨n.narrative_type, n.primary_actor_id, n.start_time, n.end_time, n.score⟩)] },
   db.next_id)

/-- `dao.link_events_to_narrative(cursor, narrative_id, events_with_stages)`:
insert one join row per `(event_id, stage)` pair. -/
def link_events_to_narrative (db : NarrativeStore) (narrative_id : Nat)
    (events_with_stages : List (Nat × String)) : NarrativeStore :=
  { db with
      narrative_events := db.narrative_events ++
        events_with_stages.map fun pr => (narrative_id, pr.1, pr.2) }

/-- The `events_with_stages` list of `ntw.py` lines 99-104: the narrative's
contributing events, or the current event as a single `final_step` row when
that list is empty. -/
def eventsWithStages (n : CompletedNarrative) (event_id : Nat) : List (Nat × String) :=
  if n.event_ids.isEmpty then [(event_id, "final_step")] else n.event_ids

/-- The persistence block of `ntw.py` lines 90-113: on a separate connection,
create the narrative and link its events, committing at the end; the sqlite
connection context manager rolls the transaction back when an exception
escapes, and the `except` handler logs without re-raising.  `create_fails` and
`link_fails` say whether the corresponding dao call raises.  Returns the store
after the block and the value of the `narrative_id` variable (which keeps the
assigned rowid even when the link step fails after it, since the assignment
already happened). -/
def persistNarrative (db : NarrativeStore) (n : CompletedNarrative) (event_id : Nat)
    (create_fails link_fails : Bool) : NarrativeStore × Option Nat :=
  if create_fails then (db, none)
  else
    let created := create_narrative db n
    if link_fails then (db, some created.2)
    else (link_events_to_narrative created.1 created.2 (eventsWithStages n event_id), some created.2)

/-- The store a fully successful persistence leaves: header row and join rows
committed together. -/
def committedStore (db : NarrativeStore) (n : CompletedNarrative) (event_id : Nat) :
    NarrativeStore :=
  link_events_to_narrative (create_narrative db n).1 (create_narrative db n).2
    (eventsWithStages n event_id)

/-- `get_final_threat_score` with its persistence phase (`ntw.py` lines
34-147): compute the score, then, when a narrative completed, persist it on a
separate connection; a persistence failure is logged and the already-computed
result is returned regardless.  Returns the score result, the `narrative_id`
output field, and the store after the call. -/
noncomputable def get_final_threat_score_full (er_heuristic_score : ℝ)
    (er_tags : List String) (ml_probability : ℝ)
    (completed_narrative : Option CompletedNarrative) (event_id : Nat)
    (db : NarrativeStore) (create_fails link_fails : Bool) :
    ScoreResult × Option Nat × NarrativeStore :=
  let result := get_final_threat_score_core er_heuristic_score er_tags ml_probability
    completed_narrative
  match completed_narrative with
  | some n =>
    let persisted := persistNarrative db n event_id create_fails link_fails
    (result, persisted.2, persisted.1)
  | none => (result, none, db)

/-! ## Field lemmas for the orchestrator -/

theorem core_bonus (er : ℝ) (tags : List String) (p : ℝ) (c : Option CompletedNarrative) :
    (get_final_threat_score_core er tags p c).total_amplifier_bonus = 0 := by
  cases c <;> rfl

theorem core_final (er : ℝ) (tags : List String) (p : ℝ) (c : Option CompletedNarrative) :
    (get_final_threat_score_core er tags p c).final_score =
      min ((get_final_threat_score_core er tags p c).base_score * (1 + 0)) 100 := by
  cases c <;> rfl

theorem core_level (er : ℝ) (tags : List String) (p : ℝ) (c : Option CompletedNarrative) :
    (get_final_threat_score_core er tags p c).threat_level =
      assign_threat_level (get_final_threat_score_core er tags p c).final_score
        (get_final_threat_score_core er tags p c).logic_tier := by
  cases c <;> rfl

theorem core_er (er : ℝ) (tags : List String) (p : ℝ) (c : Option CompletedNarrative) :
    (get_final_threat_score_core er tags p c).er_score =
      max er (if PROSECUTOR_MIN_CONFIDENCE ≤ p then p * SCORE_MAPPING_SLOPE else 0) := by
  cases c <;> rfl

theorem core_tags (er : ℝ) (tags : List String) (p : ℝ) (c : Option CompletedNarrative) :
    (get_final_threat_score_core er tags p c).tags =
      if PROSECUTOR_MIN_CONFIDENCE ≤ p then tags ++ ["ML_BEHAVIORAL_THREAT"] else tags := by
  cases c <;> rfl

theorem core_base_some (er : ℝ) (tags : List String) (p : ℝ) (n : CompletedNarrative) :
    (get_final_threat_score_core er tags p (some n)).base_score = (n.score : ℝ) := rfl

theorem core_tier_some (er : ℝ) (tags : List String) (p : ℝ) (n : CompletedNarrative) :
    (get_final_threat_score_core er tags p (some n)).logic_tier = "Narrative-Driven" := rfl

theorem core_nr_none (er : ℝ) (tags : List String) (p : ℝ) :
    (get_final_threat_score_core er tags p none).nr_score = 0 := rfl

theorem core_base_none (er : ℝ) (tags : List String) (p : ℝ) :
    (get_final_threat_score_core er tags p none).base_score =
      (calculate_blended_base_score (get_final_threat_score_core er tags p none).er_score 0).1 :=
  rfl

theorem core_tier_none (er : ℝ) (tags : List String) (p : ℝ) :
    (get_final_threat_score_core er tags p none).logic_tier =
      (calculate_blended_base_score (get_final_threat_score_core er tags p none).er_score 0).2 :=
  rfl

/-! ## Sigmoid bounds -/

theorem sigmoid_pos (x : ℝ) : 0 < sigmoid x := by
  unfold sigmoid
  positivity

theorem sigmoid_lt_one (x : ℝ) : sigmoid x < 1 := by
  unfold sigmoid
  rw [div_lt_one (by positivity)]
  linarith [Real.exp_pos (-x)]

theorem nine_lt_exp : (9 : ℝ) < Real.exp 7.5 := by
  have h1 : (3.5 : ℝ) ≤ Real.exp 2.5 := by
    have h := Real.add_one_le_exp (2.5 : ℝ)
    linarith
  have h2 : Real.exp (7.5 : ℝ) = Real.exp 2.5 * Real.exp 2.5 * Real.exp 2.5 := by
    rw [← Real.exp_add, ← Real.exp_add]
    norm_num
  nlinarith [Real.exp_pos (2.5 : ℝ)]

theorem sigmoid_neg75_lt : sigmoid (-7.5) < 0.1 := by
  unfold sigmoid
  have h9 := nine_lt_exp
  rw [neg_neg, div_lt_iff₀ (by positivity)]
  nlinarith

theorem sharpness_shift : NARRATIVE_CONFIDENCE_SHARPNESS *
    (0 - NARRATIVE_CONFIDENCE_THRESHOLD) = -7.5 := by
  norm_num [NARRATIVE_CONFIDENCE_SHARPNESS, NARRATIVE_CONFIDENCE_THRESHOLD]

theorem blend_at_zero (er : ℝ) : calculate_blended_base_score er 0 =
    ((1 - sigmoid (-7.5)) * er, "Event-Driven") := by
  unfold calculate_blended_base_score
  have h0 : min (1 : ℝ) (0 / NARRATIVE_CONFIDENCE_MAX_SCORE) = 0 := by
    norm_num [NARRATIVE_CONFIDENCE_MAX_SCORE]
  rw [h0]
  simp only []
  rw [sharpness_shift]
  have hw := sigmoid_neg75_lt
  have hw9 : ¬ (0.9 : ℝ) < sigmoid (-7.5) := by
    have h1 : (0.1 : ℝ) ≤ 0.9 := by norm_num
    exact not_lt.mpr (le_of_lt (lt_of_lt_of_le hw h1))
  rw [if_neg hw9, if_pos hw]
  exact Prod.ext (by ring) rfl

/-! ## Claim C1: the final score is within [0, 100] -/

/-- Claim C1 — for every input event and every combination of signal values
(any heuristic ER score, any ML probability, and any completed narrative whose
template base score is non-negative, as every configured narrative score is),
the `final_score` of the ScoreResult returned by `get_final_threat_score` lies
in [0, 100]. -/
theorem final_score_bounds (er : ℝ) (tags : List String) (p : ℝ)
    (c : Option CompletedNarrative)
    (hnr : ∀ n, c = some n → (0 : ℚ) ≤ n.score) :
    0 ≤ (get_final_threat_score_core er tags p c).final_score ∧
      (get_final_threat_score_core er tags p c).final_score ≤ 100 := by
  have hml : (0 : ℝ) ≤ (if PROSECUTOR_MIN_CONFIDENCE ≤ p then p * SCORE_MAPPING_SLOPE else 0) := by
    split
    · have hp : PROSECUTOR_MIN_CONFIDENCE ≤ p := by assumption
      have h65 : (0 : ℝ) < PROSECUTOR_MIN_CONFIDENCE := by norm_num [PROSECUTOR_MIN_CONFIDENCE]
      have : (0 : ℝ) ≤ p := le_of_lt (lt_of_lt_of_le h65 hp)
      have hs : (0 : ℝ) ≤ SCORE_MAPPING_SLOPE := by norm_num [SCORE_MAPPING_SLOPE]
      exact mul_nonneg this hs
    · exact le_refl 0
  have her : 0 ≤ (get_final_threat_score_core er tags p c).er_score := by
    rw [core_er]
    exact le_max_of_le_right hml
  have hbase : 0 ≤ (get_final_threat_score_core er tags p c).base_score := by
    cases c with
    | none =>
      rw [core_base_none, blend_at_zero]
      have h1 : sigmoid (-7.5) < 1 := sigmoid_lt_one _
      have : (0 : ℝ) ≤ 1 - sigmoid (-7.5) := by linarith
      rw [core_er] at her ⊢
      exact mul_nonneg this (le_max_of_le_right hml)
    | some n =>
      rw [core_base_some]
      exact_mod_cast hnr n rfl
  constructor
  · rw [core_final]
    exact le_min (by nlinarith) (by norm_num)
  · rw [core_final]
    exact min_le_right _ _

/-- Witness for C1 at the all-zero signal combination. -/
theorem final_score_bounds_witness :
    (∀ n : CompletedNarrative, (none : Option CompletedNarrative) = some n → (0 : ℚ) ≤ n.score) ∧
      0 ≤ (get_final_threat_score_core 0 [] 0 none).final_score ∧
      (get_final_threat_score_core 0 [] 0 none).final_score ≤ 100 :=
  ⟨fun _ h => (nomatch h), final_score_bounds 0 [] 0 none (fun _ h => (nomatch h))⟩

/-! ## Claim C2: the threat-level mapping and the Critical cap -/

/-- The threat-level mapping never assigns Critical off the Narrative-Driven
tier. -/
theorem assign_no_critical (s : ℝ) (tier : String) (h : tier ≠ "Narrative-Driven") :
    assign_threat_level s tier ≠ "Critical" := by
  unfold assign_threat_level
  split_ifs <;> simp_all

/-- Claim C2 — the threat level is assigned from final_score exactly by the
spec's mapping: at 70 and above, Critical when the logic tier is
Narrative-Driven and High otherwise; else at 40 and above High; else at 20 and
above Medium; else Low.  In particular an event whose tier is not
Narrative-Driven is never assigned Critical. -/
theorem threat_level_mapping (er : ℝ) (tags : List String) (p : ℝ)
    (c : Option CompletedNarrative) :
    ((get_final_threat_score_core er tags p c).threat_level =
      assign_threat_level (get_final_threat_score_core er tags p c).final_score
        (get_final_threat_score_core er tags p c).logic_tier) ∧
    (∀ (s : ℝ) (tier : String), 70 ≤ s →
      assign_threat_level s tier =
        if tier = "Narrative-Driven" then "Critical" else "High") ∧
    (∀ (s : ℝ) (tier : String), 40 ≤ s → s < 70 → assign_threat_level s tier = "High") ∧
    (∀ (s : ℝ) (tier : String), 20 ≤ s → s < 40 → assign_threat_level s tier = "Medium") ∧
    (∀ (s : ℝ) (tier : String), s < 20 → assign_threat_level s tier = "Low") ∧
    ((get_final_threat_score_core er tags p c).logic_tier ≠ "Narrative-Driven" →
      (get_final_threat_score_core er tags p c).threat_level ≠ "Critical") := by
  refine ⟨core_level er tags p c, ?_, ?_, ?_, ?_, ?_⟩
  · intro s tier h
    unfold assign_threat_level
    rw [if_pos h]
  · intro s tier h40 h70
    unfold assign_threat_level
    rw [if_neg (not_le.mpr h70), if_pos h40]
  · intro s tier h20 h40
    unfold assign_threat_level
    rw [if_neg (not_le.mpr (lt_trans h40 (by norm_num))),
      if_neg (not_le.mpr h40), if_pos h20]
  · intro s tier h20
    unfold assign_threat_level
    rw [if_neg (not_le.mpr (lt_trans h20 (by norm_num))),
      if_neg (not_le.mpr (lt_trans h20 (by norm_num))), if_neg (not_le.mpr h20)]
  · intro htier
    rw [core_level]
    exact assign_no_critical _ _ htier

/-! ## Claim C3: the amplifier bonus pool -/

/-- Counterexample to claim C3 — an event whose ER output carries the
OFF_HOURS_ACTIVITY tag, for which the configured amplifier bonus fraction is
the positive 0.5, still gets `total_amplifier_bonus = 0` (the literal `0.0` of
`ntw.py` line 86): with amplifier tags present the bonus is not strictly
positive, so the configured amplifier pool is not what the code computes. -/
theorem amplifier_bonus_cex :
    (get_final_threat_score_core 40 ["OFF_HOURS_ACTIVITY"] 0 none).tags =
        ["OFF_HOURS_ACTIVITY"] ∧
      AMPLIFIER_BONUSES.lookup "OFF_HOURS_ACTIVITY" = some (0.5 : ℚ) ∧
      (get_final_threat_score_core 40 ["OFF_HOURS_ACTIVITY"] 0 none).total_amplifier_bonus = 0 ∧
      ¬ 0 < (get_final_threat_score_core 40 ["OFF_HOURS_ACTIVITY"] 0
        none).total_amplifier_bonus := by
  refine ⟨?_, by simp [AMPLIFIER_BONUSES, List.lookup], core_bonus _ _ _ _, ?_⟩
  · rw [core_tags, if_neg (by norm_num [PROSECUTOR_MIN_CONFIDENCE])]
  · rw [core_bonus]
    exact lt_irrefl 0

/-- Claim C3 (amended) — the final score is `min(100, base * (1 + bonus))`
with the bonus always `0.0`: the configured amplifier bonuses are never
applied, so the final score is just `min(100, base)`. -/
theorem amplifier_bonus_zero (er : ℝ) (tags : List String) (p : ℝ)
    (c : Option CompletedNarrative) :
    (get_final_threat_score_core er tags p c).total_amplifier_bonus = 0 ∧
      (get_final_threat_score_core er tags p c).final_score =
        min ((get_final_threat_score_core er tags p c).base_score *
          (1 + (get_final_threat_score_core er tags p c).total_amplifier_bonus)) 100 ∧
      (get_final_threat_score_core er tags p c).final_score =
        min (get_final_threat_score_core er tags p c).base_score 100 := by
  refine ⟨core_bonus er tags p c, ?_, ?_⟩
  · rw [core_bonus, core_final]
  · rw [core_final]
    norm_num

/-! ## Claim C10: without a completed narrative the blend is Event-Driven -/

/-- Claim C10 — on every call where no narrative completes, the narrative
score entering the blend is 0; with the configured constants the sigmoid
argument is `10 * (0 - 0.75) = -7.5` and `sigmoid(-7.5) < 0.1`, so the logic
tier returned is always Event-Driven and the base score is
`(1 - sigmoid(-7.5))` times the ER score; the Blended tier is unreachable for
any input, and the blend path never yields Narrative-Driven (that tier implies
a completed narrative). -/
theorem blend_path_event_driven (er : ℝ) (tags : List String) (p : ℝ) :
    (get_final_threat_score_core er tags p none).nr_score = 0 ∧
      NARRATIVE_CONFIDENCE_SHARPNESS * (0 - NARRATIVE_CONFIDENCE_THRESHOLD) = -7.5 ∧
      sigmoid (-7.5) < 0.1 ∧
      (get_final_threat_score_core er tags p none).logic_tier = "Event-Driven" ∧
      (get_final_threat_score_core er tags p none).base_score =
        (1 - sigmoid (-7.5)) * (get_final_threat_score_core er tags p none).er_score ∧
      (∀ c : Option CompletedNarrative,
        (get_final_threat_score_core er tags p c).logic_tier ≠ "Blended") ∧
      (∀ c : Option CompletedNarrative,
        (get_final_threat_score_core er tags p c).logic_tier = "Narrative-Driven" →
          c ≠ none) := by
  refine ⟨core_nr_none er tags p, sharpness_shift, sigmoid_neg75_lt, ?_, ?_, ?_, ?_⟩
  · rw [core_tier_none, blend_at_zero]
  · rw [core_base_none, blend_at_zero]
  · intro c
    cases c with
    | some n =>
      rw [core_tier_some]
      simp
    | none =>
      rw [core_tier_none, blend_at_zero]
      simp
  · intro c hc
    cases c with
    | some n => exact Option.some_ne_none n
    | none =>
      rw [core_tier_none, blend_at_zero] at hc
      simp at hc

/-! ## Claim C7: persistence isolation and atomicity -/

/-- Claim C7 — a persistence failure (narrative creation or event linking
raising) never changes the ScoreResult returned to the caller, and the store
is updated atomically: either the narrative row and its event links are
committed together or the store is left unchanged; any failing flag leaves the
store unchanged (the sqlite transaction rolls back and the handler logs
without re-raising). -/
theorem persistence_isolated (er : ℝ) (tags : List String) (p : ℝ)
    (c : Option CompletedNarrative) (event_id : Nat) (db : NarrativeStore)
    (create_fails link_fails : Bool) :
    ((get_final_threat_score_full er tags p c event_id db create_fails link_fails).1 =
      get_final_threat_score_core er tags p c) ∧
    (∀ n, c = some n →
      (get_final_threat_score_full er tags p c event_id db create_fails link_fails).2.2 = db ∨
      (get_final_threat_score_full er tags p c event_id db create_fails link_fails).2.2 =
        committedStore db n event_id) ∧
    (c = none →
      (get_final_threat_score_full er tags p c event_id db create_fails link_fails).2.2 = db) ∧
    ((create_fails || link_fails) = true →
      (get_final_threat_score_full er tags p c event_id db create_fails link_fails).2.2 = db) := by
  refine ⟨?_, ?_, ?_, ?_⟩
  · cases c <;> rfl
  · intro n hn
    subst hn
    show (persistNarrative db n event_id create_fails link_fails).1 = db ∨
      (persistNarrative db n event_id create_fails link_fails).1 = committedStore db n event_id
    unfold persistNarrative
    cases create_fails with
    | true => exact Or.inl rfl
    | false =>
      cases link_fails with
      | true => exact Or.inl rfl
      | false => exact Or.inr rfl
  · intro hc
    subst hc
    rfl
  · intro hf
    cases c with
    | none => rfl
    | some n =>
      show (persistNarrative db n event_id create_fails link_fails).1 = db
      unfold persistNarrative
      cases create_fails with
      | true => rfl
      | false =>
        cases link_fails with
        | true => rfl
        | false => simp at hf

/-! ## Claim C8: ML unavailability versus ML errors -/

/-- Counterexample to claim C8 — with the model loaded and an actor present, a
prediction error propagates out of `calculate_ml_risk_score`, and the
orchestrator's outer handler (`ntw.py` line 119) logs and re-raises: the call
returns no ScoreResult at all, so an ML computation error does abort the
scoring of the event. -/
theorem ml_error_aborts_cex :
    get_final_threat_score_run 0 [] true (some "alice") (.err "predict failed") none =
        .error "predict failed" ∧
      (∀ r : ScoreResult,
        get_final_threat_score_run 0 [] true (some "alice") (.err "predict failed") none ≠
          .ok r) := by
  refine ⟨rfl, ?_⟩
  intro r h
  exact Except.noConfusion h

/-- Claim C8 (amended) — when the ML oracle is unavailable (no model artifact
loaded, or the event lacks an actor, and likewise an empty feature matrix) the
ML signal is the neutral 0.0 and the rest of the scoring runs unaffected; but
when the consulted oracle raises, the exception propagates and aborts the
event's scoring (the orchestrator re-raises), so only unavailability, not
errors, fails closed. -/
theorem ml_unavailable_fail_closed (er : ℝ) (tags : List String)
    (actor : Option String) (oracle : MLOutcome) (a : String) (p : ℝ) (msg : String)
    (c : Option CompletedNarrative) :
    (get_final_threat_score_run er tags false actor oracle c =
        .ok (get_final_threat_score_core er tags 0 c)) ∧
      (get_final_threat_score_run er tags true none oracle c =
        .ok (get_final_threat_score_core er tags 0 c)) ∧
      (get_final_threat_score_run er tags true (some a) (.ok p) c =
        .ok (get_final_threat_score_core er tags p c)) ∧
      (get_final_threat_score_run er tags true (some a) (.err msg) c = .error msg) :=
  ⟨rfl, rfl, rfl, rfl⟩

/-! ## Shape lemmas for the contextual aggregator -/

theorem update_bulk (w : List Event) (e : Event) :
    (update_and_compute_micro_patterns w e).1.bulk_copy =
      if e.event_type = "file_copied" ∧ copyCount30m w e + 1 = BULK_COPY_THRESHOLD then
        some (BULK_COPY_THRESHOLD, 30)
      else none := rfl

theorem update_window (w : List Event) (e : Event) :
    (update_and_compute_micro_patterns w e).2 = evictOld (w ++ [e]) e.ts := rfl

theorem update_archive (w : List Event) (e : Event) :
    (update_and_compute_micro_patterns w e).1.archive_create =
      if e.event_type = "file_created" ∧ e.mime_type = some "application/zip" then
        some (e.name, e.ts)
      else none := rfl

theorem update_external_share (w : List Event) (e : Event) :
    (update_and_compute_micro_patterns w e).1.external_share =
      if e.event_type = "file_shared_externally" then some (e.name, e.ts) else none := rfl

/-! ## Claim C4: bulk_copy is edge-triggered -/

/-- Claim C4 — `bulk_copy` fires exactly when the event is a copy whose
pre-append rolling 30-minute copy count equals the threshold minus one (the
crossing), never fires while that count is already at or above the threshold,
and in the two-copies-in-five-minutes scenario with threshold 2 it fires on
the second copy only. -/
theorem bulk_copy_edge_trigger :
    (∀ (w : List Event) (e : Event),
      (update_and_compute_micro_patterns w e).1.bulk_copy.isSome = true ↔
        e.event_type = "file_copied" ∧ copyCount30m w e = BULK_COPY_THRESHOLD - 1) ∧
    (∀ (w : List Event) (e : Event), BULK_COPY_THRESHOLD ≤ copyCount30m w e →
      (update_and_compute_micro_patterns w e).1.bulk_copy = none) ∧
    ((update_and_compute_micro_patterns []
        ⟨1, some "u", "file_copied", 0, none, none, none, none⟩).1.bulk_copy = none ∧
      (update_and_compute_micro_patterns
        (stepWindow [] ⟨1, some "u", "file_copied", 0, none, none, none, none⟩)
        ⟨2, some "u", "file_copied", 300, none, none, none, none⟩).1.bulk_copy =
          some (BULK_COPY_THRESHOLD, 30)) := by
  refine ⟨?_, ?_, ?_, ?_⟩
  · intro w e
    rw [update_bulk]
    constructor
    · intro h
      by_cases hc : e.event_type = "file_copied" ∧ copyCount30m w e + 1 = BULK_COPY_THRESHOLD
      · refine ⟨hc.1, ?_⟩
        have h2 := hc.2
        simp only [BULK_COPY_THRESHOLD] at h2 ⊢
        omega
      · rw [if_neg hc] at h
        simp at h
    · intro hc
      have hcnt : copyCount30m w e + 1 = BULK_COPY_THRESHOLD := by
        have h2 := hc.2
        simp only [BULK_COPY_THRESHOLD] at h2 ⊢
        omega
      rw [if_pos ⟨hc.1, hcnt⟩]
      rfl
  · intro w e h
    rw [update_bulk, if_neg]
    intro hc
    have h2 := hc.2
    simp only [BULK_COPY_THRESHOLD] at h h2
    omega
  · simp [update_bulk, copyCount30m, BULK_COPY_THRESHOLD]
  · have h1 : stepWindow []
        (⟨1, some "u", "file_copied", 0, none, none, none, none⟩ : Event) =
        [⟨1, some "u", "file_copied", 0, none, none, none, none⟩] := by
      rw [stepWindow, update_window]
      norm_num [evictOld, MAX_WINDOW_MINUTES]
    rw [h1, update_bulk]
    rw [if_pos]
    constructor
    · rfl
    · norm_num [copyCount30m, BULK_COPY_THRESHOLD]

/-! ## Claim C9: what the aggregator returns and when the window is updated -/

/-- Counterexample to claim C9 — the aggregator's update operation returns no
contextual-risk score: two trash events that differ only in the acted-on
file's age (one a dormant-file activation, one fresh) produce identical
outputs from `update_and_compute_micro_patterns`, while the contextual-risk
score the spec describes (`CONTEXTUAL_RISK_ADDITIONS`) differs on them (7
against 0), so no component of the returned value is that score. -/
theorem contextual_score_absent_cex :
    (update_and_compute_micro_patterns []
        ⟨1, some "u", "file_trashed", 10000000, some "report.docx", none,
          some 0, some 0⟩).1 =
      (update_and_compute_micro_patterns []
        ⟨1, some "u", "file_trashed", 10000000, some "report.docx", none,
          some 9999940, some 9999940⟩).1 ∧
      spec_contextual_risk_score 7776000 2592000 10 []
          ⟨1, some "u", "file_trashed", 10000000, some "report.docx", none,
            some 0, some 0⟩ ≠
        spec_contextual_risk_score 7776000 2592000 10 []
          ⟨1, some "u", "file_trashed", 10000000, some "report.docx", none,
            some 9999940, some 9999940⟩ := by
  constructor
  · rfl
  · simp only [spec_contextual_risk_score, isDormantActivation, hasArchiveExtension,
      isBurstActivity, BURST_ACTIVITY_THRESHOLD]
    norm_num

/-- Claim C9 (amended) — `update_and_compute_micro_patterns` returns the ML
window features and the discrete micro-patterns, all computed over the actor's
window strictly before the current event is appended (the rolling counts
filter the pre-append window by the 30/15-minute cutoffs and the event type),
and then updates the window by appending the event and evicting entries older
than the bound; it computes no contextual-risk score, reasons or tags (the
configured `CONTEXTUAL_RISK_ADDITIONS` and `BURST_ACTIVITY_THRESHOLD` are
unused by it). -/
theorem contextual_update_shape :
    (∀ (w : List Event) (e : Event),
      (update_and_compute_micro_patterns w e).2 = evictOld (w ++ [e]) e.ts) ∧
    (∀ (w : List Event) (e : Event),
      (update_and_compute_micro_patterns w e).1.actor_copy_count_30m =
        (w.filter fun x =>
          (x.event_type == "file_copied") && decide (e.ts - 30 * 60 ≤ x.ts)).length) ∧
    (∀ (w : List Event) (e : Event),
      (update_and_compute_micro_patterns w e).1.actor_external_share_count_15m =
        (w.filter fun x =>
          (x.event_type == "file_shared_externally") &&
            decide (e.ts - 15 * 60 ≤ x.ts)).length) ∧
    (∀ (w : List Event) (e : Event),
      (update_and_compute_micro_patterns w e).1.archive_create.isSome = true ↔
        e.event_type = "file_created" ∧ e.mime_type = some "application/zip") ∧
    (∀ (w : List Event) (e : Event),
      (update_and_compute_micro_patterns w e).1.external_share.isSome = true ↔
        e.event_type = "file_shared_externally") := by
  refine ⟨update_window, ?_, ?_, ?_, ?_⟩
  · intro w e
    show ((w.filter fun x => decide (e.ts - 30 * 60 ≤ x.ts)).filter
      fun x => x.event_type == "file_copied").length = _
    rw [List.filter_filter]
  · intro w e
    show (((w.filter fun x => decide (e.ts - 30 * 60 ≤ x.ts)).filter
        fun x => decide (e.ts - 15 * 60 ≤ x.ts)).filter
      fun x => x.event_type == "file_shared_externally").length = _
    rw [List.filter_filter, List.filter_filter]
    congr 1
    apply List.filter_congr
    intro x _
    by_cases h15 : e.ts - 15 * 60 ≤ x.ts
    · have h30 : e.ts - 30 * 60 ≤ x.ts := by linarith
      simp [h15, h30]
    · simp [h15]
    
  · intro w e
    rw [update_archive]
    constructor
    · intro h
      by_cases hc : e.event_type = "file_created" ∧ e.mime_type = some "application/zip"
      · exact hc
      · rw [if_neg hc] at h
        simp at h
    · intro hc
      rw [if_pos hc]
      rfl
  · intro w e
    rw [update_external_share]
    constructor
    · intro h
      by_cases hc : e.event_type = "file_shared_externally"
      · exact hc
      · rw [if_neg hc] at h
        simp at h
    · intro hc
      rw [if_pos hc]
      rfl

/-! ## Claim C6: the window never keeps events older than the bound -/

theorem evictOld_sublist (w : List Event) (now : ℚ) : (evictOld w now).Sublist w := by
  induction w with
  | nil => exact List.Sublist.refl _
  | cons e rest ih =>
    rw [evictOld]
    split
    · exact ih.trans (List.sublist_cons_self e rest)
    · exact List.Sublist.refl _

theorem evictOld_bound (w : List Event) (now : ℚ) (hw : w.Pairwise tsLE) :
    ∀ x ∈ evictOld w now, now - x.ts ≤ MAX_WINDOW_MINUTES * 60 := by
  induction w with
  | nil => intro x hx; exact absurd hx (by simp [evictOld])
  | cons e rest ih =>
    intro x hx
    rw [evictOld] at hx
    by_cases hc : MAX_WINDOW_MINUTES * 60 < now - e.ts
    · rw [if_pos hc] at hx
      exact ih (List.Pairwise.of_cons hw) x hx
    · rw [if_neg hc] at hx
      rcases List.mem_cons.mp hx with rfl | hx'
      · linarith [not_lt.mp hc]
      · have hts : e.ts ≤ x.ts := (List.pairwise_cons.mp hw).1 x hx'
        have := not_lt.mp hc
        linarith

theorem window_fold_bound : ∀ (evs w : List Event), (w ++ evs).Pairwise tsLE →
    ∀ lst, evs.getLast? = some lst →
    ∀ x ∈ evs.foldl stepWindow w, lst.ts - x.ts ≤ MAX_WINDOW_MINUTES * 60 := by
  intro evs
  induction evs with
  | nil =>
    intro w hp lst hlst
    exact absurd hlst (by simp)
  | cons e rest ih =>
    intro w hp lst hlst x hx
    cases rest with
    | nil =>
      have hlst' : lst = e := by
        simp at hlst
        exact hlst.symm
      subst hlst'
      have hpe : (w ++ [lst]).Pairwise tsLE := hp
      have hx' : x ∈ evictOld (w ++ [lst]) lst.ts := by
        simpa [stepWindow, update_window] using hx
      exact evictOld_bound (w ++ [lst]) lst.ts hpe x hx'
    | cons e2 rest2 =>
      have hsplit : (w ++ e :: e2 :: rest2) = (w ++ [e]) ++ (e2 :: rest2) := by
        simp
      have hp2 : ((stepWindow w e) ++ (e2 :: rest2)).Pairwise tsLE := by
        have hsub : ((stepWindow w e) ++ (e2 :: rest2)).Sublist ((w ++ [e]) ++ (e2 :: rest2)) := by
          apply List.Sublist.append_right
          have : stepWindow w e = evictOld (w ++ [e]) e.ts := by
            rw [stepWindow, update_window]
          rw [this]
          exact evictOld_sublist _ _
        exact List.Pairwise.sublist hsub (hsplit ▸ hp)
      have hlst2 : (e2 :: rest2).getLast? = some lst := by
        rwa [List.getLast?_cons_cons] at hlst
      exact ih (stepWindow w e) hp2 lst hlst2 x hx

/-- Claim C6 — for every actor whose events are processed in non-decreasing
timestamp order, after any number of events the actor's window contains no
event more than `MAX_WINDOW_MINUTES` (45 minutes) older than the most recently
appended event. -/
theorem actor_window_bounded (evs : List Event) (h : evs.Pairwise tsLE)
    (lst : Event) (hlst : evs.getLast? = some lst) :
    ∀ x ∈ runWindow evs, lst.ts - x.ts ≤ MAX_WINDOW_MINUTES * 60 := by
  have := window_fold_bound evs [] (by simpa using h) lst hlst
  simpa [runWindow] using this

/-- Witness for C6: two events one minute apart are both kept, and the bound
holds for the older one. -/
theorem actor_window_bounded_witness :
    ([⟨1, some "u", "file_created", 0, none, none, none, none⟩,
      ⟨2, some "u", "file_copied", 60, none, none, none, none⟩] : List Event).Pairwise tsLE ∧
    ([⟨1, some "u", "file_created", 0, none, none, none, none⟩,
      ⟨2, some "u", "file_copied", 60, none, none, none, none⟩] : List Event).getLast? =
      some ⟨2, some "u", "file_copied", 60, none, none, none, none⟩ ∧
    (⟨1, some "u", "file_created", 0, none, none, none, none⟩ : Event) ∈
      runWindow [⟨1, some "u", "file_created", 0, none, none, none, none⟩,
        ⟨2, some "u", "file_copied", 60, none, none, none, none⟩] ∧
    (60 : ℚ) - 0 ≤ MAX_WINDOW_MINUTES * 60 := by
  have hp : ([⟨1, some "u", "file_created", 0, none, none, none, none⟩,
      ⟨2, some "u", "file_copied", 60, none, none, none, none⟩] : List Event).Pairwise tsLE := by
    constructor
    · intro b hb
      simp at hb
      subst hb
      show (0 : ℚ) ≤ 60
      norm_num
    · exact List.pairwise_singleton _ _
  have hmem : (⟨1, some "u", "file_created", 0, none, none, none, none⟩ : Event) ∈
      runWindow [⟨1, some "u", "file_created", 0, none, none, none, none⟩,
        ⟨2, some "u", "file_copied", 60, none, none, none, none⟩] := by
    show _ ∈ stepWindow (stepWindow [] _) _
    rw [stepWindow, update_window, stepWindow, update_window]
    norm_num [evictOld, MAX_WINDOW_MINUTES]
  refine ⟨hp, rfl, hmem, ?_⟩
  have := actor_window_bounded _ hp _ rfl _ hmem
  simpa using this

/-! ## Claim C5: the FSM completes on the exact step order and only on it -/

theorem advance_no_match (f : FSMInstance) (p d : String) (i : Nat)
    (hs : f.state < f.template.ordered_steps.length)
    (hp : f.template.ordered_steps[f.state]? ≠ some p) :
    f.advance p d i = (.NO_MATCH, f) := by
  unfold FSMInstance.advance
  rw [if_neg (not_le.mpr hs), if_neg hp]

theorem advance_state (f : FSMInstance) (p d : String) (i : Nat) :
    (f.advance p d i).2.state = stepCursor f.template.ordered_steps f.state p ∧
      (f.advance p d i).2.template = f.template := by
  unfold FSMInstance.advance stepCursor
  by_cases hlen : f.template.ordered_steps.length ≤ f.state
  · have hnone : f.template.ordered_steps[f.state]? = none :=
      List.getElem?_eq_none hlen
    rw [if_pos hlen, hnone]
    exact ⟨by simp, rfl⟩
  · rw [if_neg hlen]
    by_cases hget : f.template.ordered_steps[f.state]? = some p
    · rw [if_pos hget, hget]
      exact ⟨by simp, rfl⟩
    · rw [if_neg hget, if_neg hget]
      exact ⟨rfl, rfl⟩

theorem foldAdvance_state (ps : List String) : ∀ f : FSMInstance,
    (foldAdvance f ps).state = runCursor f.template.ordered_steps f.state ps ∧
      (foldAdvance f ps).template = f.template := by
  induction ps with
  | nil => intro f; exact ⟨rfl, rfl⟩
  | cons p rest ih =>
    intro f
    have h1 := advance_state f p "" 0
    have h2 := ih (f.advance p "" 0).2
    constructor
    · show (foldAdvance (f.advance p "" 0).2 rest).state = _
      rw [h2.1, h1.2, h1.1]
      rfl
    · show (foldAdvance (f.advance p "" 0).2 rest).template = _
      rw [h2.2, h1.2]

theorem runCursor_complete_sublist (steps : List String) :
    ∀ (ps : List String) (k : Nat), runCursor steps k ps = steps.length →
      (steps.drop k).Sublist ps := by
  intro ps
  induction ps with
  | nil =>
    intro k h
    have hk : k = steps.length := h
    rw [hk, List.drop_length]
  | cons p rest ih =>
    intro k h
    by_cases hget : steps[k]? = some p
    · have hk : k < steps.length := by
        by_contra hk
        rw [List.getElem?_eq_none (not_lt.mp hk)] at hget
        exact Option.noConfusion hget
      have hstep : stepCursor steps k p = k + 1 := by rw [stepCursor, if_pos hget]
      have h' : runCursor steps (k + 1) rest = steps.length := by
        have hh : runCursor steps (stepCursor steps k p) rest = steps.length := h
        rwa [hstep] at hh
      have hpk : steps[k] = p := by
        have := List.getElem?_eq_getElem hk
        rw [hget] at this
        exact (Option.some.inj this).symm
      have hdrop : steps.drop k = p :: steps.drop (k + 1) := by
        rw [List.drop_eq_getElem_cons hk, hpk]
      rw [hdrop]
      exact List.Sublist.cons₂ p (ih (k + 1) h')
    · have hstep : stepCursor steps k p = k := by rw [stepCursor, if_neg hget]
      have h' : runCursor steps k rest = steps.length := by
        have hh : runCursor steps (stepCursor steps k p) rest = steps.length := h
        rwa [hstep] at hh
      exact List.Sublist.cons p (ih k h')

theorem out_of_order_incomplete (t : NarrativeTemplate) (perm : List String) (t0 : ℚ)
    (hperm : perm.Perm t.ordered_steps) (hne : perm ≠ t.ordered_steps) :
    (foldAdvance ⟨t, 0, t0, [], []⟩ perm).state ≠ t.ordered_steps.length := by
  intro h
  have hc := (foldAdvance_state perm ⟨t, 0, t0, [], []⟩).1
  rw [hc] at h
  have hsub := runCursor_complete_sublist t.ordered_steps perm 0 h
  rw [List.drop_zero] at hsub
  have hlen : t.ordered_steps.length = perm.length := hperm.length_eq.symm
  exact hne (hsub.eq_of_length hlen).symm

theorem prune_keep_single (f : FSMInstance) (now : ℚ)
    (h : now - f.start_time ≤ f.template.total_time_window_minutes * 60) :
    pruneInstances [f] now = [f] := by
  unfold pruneInstances
  simp
  linarith

theorem advanceAll_single (f : FSMInstance) (p : String) (i : Nat) :
    advanceAllPatterns f [(p, "")] i =
      ((f.advance p "" i).2, decide ((f.advance p "" i).1 = .COMPLETE)) := by
  unfold advanceAllPatterns
  show ((f.advance p "" i).2, false || decide ((f.advance p "" i).1 = .COMPLETE)) = _
  rw [Bool.false_or]

theorem spawn_blocked (t : NarrativeTemplate) (i : Nat) (now : ℚ) (p d : String)
    (tids : List String) (h : tids.contains t.tid = true) :
    spawnInstances [t] i now [(p, d)] tids = [] := by
  rw [spawnInstances, spawnInstances]
  simp
  intro _
  simpa using h

theorem spawn_fresh (t : NarrativeTemplate) (i : Nat) (now : ℚ) (p d : String)
    (tids : List String) (hs : t.starter_patterns.contains p = true)
    (htid : tids.contains t.tid = false) :
    spawnInstances [t] i now [(p, d)] tids =
      [(((FSMInstance.mk t 0 now [] []).advance p d i).2,
        decide (((FSMInstance.mk t 0 now [] []).advance p d i).1 = .COMPLETE))] := by
  have hs' : p ∈ t.starter_patterns := by simpa using hs
  have htid' : t.tid ∉ tids := by simpa using htid
  rw [spawnInstances, spawnInstances]
  simp [hs', htid']

theorem engine_advances (t : NarrativeTemplate) (actor : String) (k : Nat)
    (t0 now : ℚ) (ev : List (String × String)) (ctr : List (Nat × String)) (p : String)
    (hk : k < t.ordered_steps.length) (hp : t.ordered_steps[k]? = some p)
    (ht : now - t0 ≤ t.total_time_window_minutes * 60) :
    analyze_narratives_for_actor [t] [⟨t, k, t0, ev, ctr⟩] actor [(p, "")] 0 now =
      if k + 1 = t.ordered_steps.length then
        (some (mkNarrative ⟨t, k + 1, t0, ev ++ [(p, "")], ctr ++ [(0, p)]⟩ actor now), [])
      else (none, [⟨t, k + 1, t0, ev ++ [(p, "")], ctr ++ [(0, p)]⟩]) := by
  have hadv : (FSMInstance.mk t k t0 ev ctr).advance p "" 0 =
      ((if k + 1 = t.ordered_steps.length then .COMPLETE else .ADVANCED : AdvanceResult),
        ⟨t, k + 1, t0, ev ++ [(p, "")], ctr ++ [(0, p)]⟩) := by
    show (if t.ordered_steps.length ≤ k then _ else _) = _
    rw [if_neg (not_le.mpr hk)]
    show (if t.ordered_steps[k]? = some p then _ else _) = _
    rw [if_pos hp]
  unfold analyze_narratives_for_actor
  simp only []
  rw [prune_keep_single _ _ ht, List.map_cons, List.map_nil, advanceAll_single, hadv]
  dsimp only
  rw [List.map_cons, List.map_nil]
  rw [spawn_blocked t 0 now p "" [t.tid] (by simp)]
  by_cases hterm : k + 1 = t.ordered_steps.length
  · rw [if_pos hterm]
    simp [hterm]
  · rw [if_neg hterm]
    simp [hterm]

theorem engine_spawns (t : NarrativeTemplate) (actor : String) (s0 : String) (now : ℚ)
    (h0 : t.ordered_steps[0]? = some s0)
    (hs : t.starter_patterns.contains s0 = true) :
    analyze_narratives_for_actor [t] [] actor [(s0, "")] 0 now =
      if 1 = t.ordered_steps.length then
        (some (mkNarrative ⟨t, 1, now, [(s0, "")], [(0, s0)]⟩ actor now), [])
      else (none, [⟨t, 1, now, [(s0, "")], [(0, s0)]⟩]) := by
  have hlen : 0 < t.ordered_steps.length := by
    by_contra hl
    rw [List.getElem?_eq_none (by omega)] at h0
    exact Option.noConfusion h0
  have hadv : (FSMInstance.mk t 0 now [] []).advance s0 "" 0 =
      ((if 0 + 1 = t.ordered_steps.length then .COMPLETE else .ADVANCED : AdvanceResult),
        ⟨t, 0 + 1, now, [] ++ [(s0, "")], [] ++ [(0, s0)]⟩) := by
    show (if t.ordered_steps.length ≤ 0 then _ else _) = _
    rw [if_neg (not_le.mpr hlen)]
    show (if t.ordered_steps[0]? = some s0 then _ else _) = _
    rw [if_pos h0]
  unfold analyze_narratives_for_actor pruneInstances
  simp only [List.filter_nil, List.map_nil]
  rw [spawn_fresh t 0 now s0 "" [] hs rfl, hadv]
  dsimp only
  simp only [List.nil_append]
  by_cases hterm : 0 + 1 = t.ordered_steps.length
  · rw [if_pos hterm, if_pos (by omega : 1 = t.ordered_steps.length)]
    simp [hterm]
    rw [← hterm]
  · rw [if_neg hterm, if_neg (by omega : ¬ 1 = t.ordered_steps.length)]
    simp [hterm]

theorem feed_completes_from (t : NarrativeTemplate) (actor : String) (t0 : ℚ) :
    ∀ (times : List ℚ) (k : Nat) (ev : List (String × String)) (ctr : List (Nat × String)),
      k + times.length = t.ordered_steps.length → times ≠ [] →
      (∀ τ ∈ times, τ - t0 ≤ t.total_time_window_minutes * 60) →
      ∃ n, feedPatterns [t] actor [⟨t, k, t0, ev, ctr⟩]
          ((t.ordered_steps.drop k).zip times) = (some n, []) ∧
        n.narrative_type = t.tid := by
  intro times
  induction times with
  | nil => intro k ev ctr _ hne _; exact absurd rfl hne
  | cons τ rest ih =>
    intro k ev ctr hlen hne ht
    have hk : k < t.ordered_steps.length := by
      simp at hlen
      omega
    have hget : t.ordered_steps[k]? = some t.ordered_steps[k] := List.getElem?_eq_getElem hk
    have hdropk : t.ordered_steps.drop k = t.ordered_steps[k] :: t.ordered_steps.drop (k + 1) :=
      List.drop_eq_getElem_cons hk
    cases rest with
    | nil =>
      have hk1 : k + 1 = t.ordered_steps.length := by
        simp at hlen
        omega
      have hdrop1 : t.ordered_steps.drop (k + 1) = [] := by rw [hk1, List.drop_length]
      rw [hdropk, hdrop1]
      refine ⟨mkNarrative ⟨t, k + 1, t0, ev ++ [(t.ordered_steps[k], "")],
        ctr ++ [(0, t.ordered_steps[k])]⟩ actor τ, ?_, rfl⟩
      show analyze_narratives_for_actor [t] [⟨t, k, t0, ev, ctr⟩] actor
        [(t.ordered_steps[k], "")] 0 τ = _
      rw [engine_advances t actor k t0 τ ev ctr _ hk hget (ht τ (by simp))]
      rw [if_pos hk1]
    | cons τ2 rest2 =>
      have hk1 : ¬ (k + 1 = t.ordered_steps.length) := by
        simp at hlen
        omega
      have hd1ne : t.ordered_steps.drop (k + 1) ≠ [] := by
        intro hcon
        have := congrArg List.length hcon
        simp at this
        omega
      obtain ⟨a, l, hal⟩ := List.exists_cons_of_ne_nil hd1ne
      rw [hdropk, hal]
      have hstep : feedPatterns [t] actor [⟨t, k, t0, ev, ctr⟩]
          ((t.ordered_steps[k], τ) :: (a, τ2) :: l.zip rest2) =
        feedPatterns [t] actor
          (analyze_narratives_for_actor [t] [⟨t, k, t0, ev, ctr⟩] actor
            [(t.ordered_steps[k], "")] 0 τ).2 ((a, τ2) :: l.zip rest2) := rfl
      rw [show ((t.ordered_steps[k] :: a :: l).zip (τ :: τ2 :: rest2)) =
        ((t.ordered_steps[k], τ) :: (a, τ2) :: l.zip rest2) from rfl]
      rw [hstep, engine_advances t actor k t0 τ ev ctr _ hk hget (ht τ (by simp)),
        if_neg hk1]
      dsimp only
      have hres := ih (k + 1) (ev ++ [(t.ordered_steps[k], "")])
        (ctr ++ [(0, t.ordered_steps[k])])
        (by simp at hlen ⊢; omega) (by simp)
        (fun τ' hτ' => ht τ' (List.mem_cons_of_mem _ hτ'))
      rw [hal] at hres
      exact hres

theorem narrative_completes_in_order (t : NarrativeTemplate) (actor : String)
    (times : List ℚ) (t0 : ℚ) (s0 : String)
    (h0 : t.ordered_steps[0]? = some s0)
    (hs : t.starter_patterns.contains s0 = true)
    (hlen : times.length = t.ordered_steps.length)
    (ht0 : times[0]? = some t0)
    (ht : ∀ τ ∈ times, τ - t0 ≤ t.total_time_window_minutes * 60) :
    ∃ n, feedPatterns [t] actor [] (t.ordered_steps.zip times) = (some n, []) ∧
      n.narrative_type = t.tid := by
  obtain ⟨stail, hsteps⟩ : ∃ stail, t.ordered_steps = s0 :: stail := by
    cases hsc : t.ordered_steps with
    | nil =>
      rw [hsc] at h0
      simp at h0
    | cons b bs =>
      rw [hsc] at h0
      simp at h0
      exact ⟨bs, by rw [h0]⟩
  cases times with
  | nil =>
    rw [hsteps] at hlen
    simp at hlen
  | cons τ0 ttail =>
    have hτ0 : τ0 = t0 := by
      simp at ht0
      exact ht0
    rw [hsteps, hτ0]
    cases ttail with
    | nil =>
      have hstail : stail = [] := by
        rw [hsteps] at hlen
        simp at hlen
        exact hlen
      subst hstail
      refine ⟨mkNarrative ⟨t, 1, t0, [(s0, "")], [(0, s0)]⟩ actor t0, ?_, rfl⟩
      show analyze_narratives_for_actor [t] [] actor [(s0, "")] 0 t0 = _
      rw [engine_spawns t actor s0 t0 h0 hs, if_pos (by simp [hsteps])]
    | cons τ2 rest2 =>
      obtain ⟨a, l, hal⟩ : ∃ a l, stail = a :: l := by
        cases hsc2 : stail with
        | nil =>
          rw [hsteps, hsc2] at hlen
          simp at hlen
        | cons a l => exact ⟨a, l, rfl⟩
      subst hal
      have hlen2 : ¬ (1 = t.ordered_steps.length) := by
        rw [hsteps]
        simp
      have hstep : feedPatterns [t] actor [] ((s0, t0) :: (a, τ2) :: l.zip rest2) =
        feedPatterns [t] actor
          (analyze_narratives_for_actor [t] [] actor [(s0, "")] 0 t0).2
          ((a, τ2) :: l.zip rest2) := rfl
      rw [show ((s0 :: a :: l).zip (t0 :: τ2 :: rest2)) =
        ((s0, t0) :: (a, τ2) :: l.zip rest2) from rfl]
      rw [hstep, engine_spawns t actor s0 t0 h0 hs, if_neg hlen2]
      dsimp only
      have hres := feed_completes_from t actor t0 (τ2 :: rest2) 1 [(s0, "")] [(0, s0)]
        (by rw [hsteps] at hlen ⊢; simp at hlen ⊢; omega) (by simp)
        (fun τ' hτ' => ht τ' (List.mem_cons_of_mem _ hτ'))
      rw [hsteps] at hres
      exact hres

/-- Claim C5 — for every actor and narrative template: feeding the engine the
template's `ordered_steps` pattern types in exact order, each within
`total_time_window` of the first (starter) delivery, completes the per-actor
FSM instance and returns the narrative on the final step; an `advance` with a
pattern that is not the expected step's type returns NO_MATCH and leaves the
instance unchanged; and delivering the same pattern types in any other order
never completes that instance.  (Modelled from the spec: the FSM engine
referenced by `ntw.py` and its tests is not present under `src/`.) -/
theorem narrative_fsm_order :
    (∀ (t : NarrativeTemplate) (actor : String) (times : List ℚ) (t0 : ℚ) (s0 : String),
      t.ordered_steps[0]? = some s0 →
      t.starter_patterns.contains s0 = true →
      times.length = t.ordered_steps.length →
      times[0]? = some t0 →
      (∀ τ ∈ times, τ - t0 ≤ t.total_time_window_minutes * 60) →
      ∃ n, feedPatterns [t] actor [] (t.ordered_steps.zip times) = (some n, []) ∧
        n.narrative_type = t.tid) ∧
    (∀ (f : FSMInstance) (p d : String) (i : Nat),
      f.state < f.template.ordered_steps.length →
      f.template.ordered_steps[f.state]? ≠ some p →
      f.advance p d i = (.NO_MATCH, f)) ∧
    (∀ (t : NarrativeTemplate) (perm : List String) (t0 : ℚ),
      perm.Perm t.ordered_steps → perm ≠ t.ordered_steps →
      (foldAdvance ⟨t, 0, t0, [], []⟩ perm).state ≠ t.ordered_steps.length) :=
  ⟨narrative_completes_in_order, advance_no_match, out_of_order_incomplete⟩

/-- Witness for C5 at the test suite's two-step template: patterns A then B
one minute apart complete the narrative; B then A never does. -/
theorem narrative_fsm_order_witness :
    (∃ n, feedPatterns [⟨"test_narrative", ["pattern_A"], ["pattern_A", "pattern_B"], 5,
        50, "Test"⟩] "user" []
        (["pattern_A", "pattern_B"].zip [(0 : ℚ), 60]) = (some n, []) ∧
      n.narrative_type = "test_narrative") ∧
    (foldAdvance ⟨⟨"test_narrative", ["pattern_A"], ["pattern_A", "pattern_B"], 5,
        50, "Test"⟩, 0, 0, [], []⟩ ["pattern_B", "pattern_A"]).state ≠ 2 := by
  constructor
  · exact narrative_fsm_order.1
      ⟨"test_narrative", ["pattern_A"], ["pattern_A", "pattern_B"], 5, 50, "Test"⟩
      "user" [(0 : ℚ), 60] 0 "pattern_A" rfl (by decide) rfl rfl
      (by
        intro τ hτ
        simp at hτ
        rcases hτ with rfl | rfl <;> norm_num)
  · exact narrative_fsm_order.2.2
      ⟨"test_narrative", ["pattern_A"], ["pattern_A", "pattern_B"], 5, 50, "Test"⟩
      ["pattern_B", "pattern_A"] 0 (by decide) (by decide)
